import Mathlib

/-
Verification of the ble_meters decoder engine, connection state machine and
aggregator against their natural-language specification.

Shallow embedding conventions:
* Frames are lists of byte values (`List Nat`); the source guards every indexed
  access by a prior length/pattern check, so `List.getD _ _ 0` is used for
  reads that the source performs on in-range indices.
* Python numbers are idealized as exact rationals (the source uses floats);
  values that the source can hold in a reading are modeled by `PyVal`
  (a number, the float infinity, or a string such as the overload text).
* A Python function that can raise an uncaught exception is modeled with an
  explicit exceptional result (`DecodeRes.exn`, `Except.error`): a dictionary
  lookup miss (`KeyError`), `int()` on a malformed digit string (`ValueError`),
  `bytes.decode` on non-ASCII input, and a read of an unbound name
  (`NameError`) all take this branch.
* decode's return value is modeled by `DecodeRes`: `.ok rs` for the usual
  list-of-triples return, `.bare` for the bare tuple `None, None, None`
  returned at ble_meters.py line 286, and `.exn` for an escaping exception.
-/

abbrev Byte := Nat

/-- One decoded LCD state: the set of flag names present in the lcd dict plus
the digits entry (absent for models that never set it). Model-specific numeric
dict entries (temperature, lux, humidity) are carried outside this record by
the decoders that produce them; no claim consults them through the lcd. -/
structure Lcd where
  flags : List String
  digits : Option String
deriving Repr, DecidableEq

/-- A Python value that can appear as the numeric component of a reading:
a finite number (floats idealized as rationals), float infinity, or a string
such as the overload placeholder. -/
inductive PyVal where
  | num (q : ℚ)
  | inf
  | str (s : String)
deriving Repr, DecidableEq

/-- One reading triple (lcd-or-None, value-or-None, units-or-None). -/
abbrev Triple := Option Lcd × Option PyVal × Option String

def absentT : Triple := (none, none, none)

/-- Result of one decode call. `ok rs` is the normal list return; `bare` is
the bare tuple return at line 286 of the source (HP90EPD mismatch path);
`exn` is an exception escaping the decode call. -/
inductive DecodeRes where
  | ok (rs : List Triple)
  | bare
  | exn
deriving Repr, DecidableEq

/-- LCD_Decoder.decode_lcd flag loop, lines 69-71: a flag is present when the
configured bit of the configured byte is set. -/
def extract_flags (flags : List (String × Nat × Nat)) (data : List Byte) : List String :=
  flags.filterMap (fun fbb => if (data.getD fbb.2.1 0).testBit fbb.2.2 then some fbb.1 else none)

/-- First-match lookup in a segment table (Python dict indexing; keys are
pairwise distinct in every table below, so first-match equals dict lookup).
`none` models the KeyError raised on a missing pattern. -/
def lookupSeg (tbl : List (Nat × Char)) (k : Nat) : Option Char :=
  (tbl.find? (fun p => p.1 == k)).map (fun p => p.2)

/-- LCD_Decoder.decode_lcd, lines 66-76, parameterized by the model's flag
table, mode_strings table and digit extractor. `none` models an exception
escaping from decode_digits (segment lookup miss). -/
def decode_lcd (flags : List (String × Nat × Nat)) (modeStrings : List (String × String))
    (digitsF : List Byte → Option String) (data : List Byte) : Option Lcd :=
  match digitsF data with
  | none => none
  | some ds =>
    let fl := extract_flags flags data
    match modeStrings.find? (fun p => p.1 == ds) with
    | some p => some ⟨fl ++ [p.2], some ds⟩
    | none => some ⟨fl, some ds⟩

/-- Digit-string value for Python `int(s, 10)`: none when the character list
is empty or contains a non-digit (ValueError). -/
def digitsVal (cs : List Char) : Option Nat :=
  if cs ≠ [] ∧ cs.all Char.isDigit then
    some (cs.foldl (fun a c => 10 * a + (c.toNat - 48)) 0)
  else none

/-- Python str.strip(): whitespace removed from both ends. -/
def trimChars (cs : List Char) : List Char :=
  ((cs.dropWhile Char.isWhitespace).reverse.dropWhile Char.isWhitespace).reverse

/-- Python `int(s, 10)`: surrounding whitespace stripped, optional sign,
then a nonempty run of digits; anything else raises ValueError (`none`). -/
def pyIntParse (s : String) : Option ℤ :=
  match trimChars s.toList with
  | '-' :: cs => (digitsVal cs).map (fun n => -(n : ℤ))
  | '+' :: cs => (digitsVal cs).map (fun n => (n : ℤ))
  | cs => (digitsVal cs).map (fun n => (n : ℤ))

/-- LCD_Decoder.scaling, lines 50-63, in dict order. -/
def scaling_table : List (String × ℚ) :=
  [("negative", -1), ("positive", 1), ("/1000", 1/1000), ("/100", 1/100),
   ("/10", 1/10), ("kilo", 1000), ("mega", 1000000), ("milli", 1/1000),
   ("micro", 1/1000000), ("nano", 1/1000000000), ("x10", 10), ("x100", 100)]

/-- LCD_Decoder.lcd_to_number, lines 77-86: string-table override first, then
base-10 parse of the digits, every present scaling flag applied
multiplicatively, overload forcing infinity. `none` models ValueError from
`int` (or KeyError were the digits key missing). -/
def lcd_to_number (strs : List (String × PyVal)) (lcd : Lcd) : Option PyVal :=
  match lcd.digits with
  | none => none
  | some ds =>
    match strs.find? (fun p => p.1 == ds) with
    | some p => some p.2
    | none =>
      match pyIntParse ds with
      | none => none
      | some n =>
        let q := scaling_table.foldl
          (fun acc fx => if lcd.flags.contains fx.1 then acc * fx.2 else acc) ((n : ℚ))
        if lcd.flags.contains "(overload)" then some PyVal.inf else some (PyVal.num q)

/-- LCD_Decoder.lcd_to_units mode vocabulary, line 88, in source order. -/
def mode_vocab : List String :=
  ["DC", "AC", "volts", "amps", "ohms", "NCV", "diode", "continuity",
   "celsius", "fahrenheit", "farads", "hertz", "%duty", "lux", "fc",
   "degrees", "%RH", "grams", "(auto)", "(hold)", "(relative)",
   "(maximum)", "(minimum)", "(low_batt)"]

/-- LCD_Decoder.lcd_to_units, lines 87-89: present modes joined in vocabulary
order. -/
def lcd_to_units (lcd : Lcd) : String :=
  String.intercalate " " (mode_vocab.filter (fun m => lcd.flags.contains m))

/-- LCD_Decoder.match, lines 93-101: byte pattern with wildcard positions. -/
def matchPat (pattern : List (Option Byte)) (data : List Byte) : Bool :=
  pattern.length == data.length &&
    (pattern.zip data).all (fun pd => match pd.1 with
      | none => true
      | some b => b == pd.2)

/- ===== TS04 ===== -/

/-- TS04_Decoder.flags, lines 150-174. -/
def TS04_flags : List (String × Nat × Nat) :=
  [("negative", 1, 4), ("(auto)", 1, 2), ("DC", 1, 1), ("AC", 1, 0),
   ("/1000", 2, 4), ("/100", 3, 4), ("/10", 4, 4), ("diode", 5, 7),
   ("kilo", 5, 6), ("micro", 5, 4), ("(hold)", 6, 7), ("ohms", 6, 5),
   ("continuity", 6, 3), ("mega", 6, 2), ("milli", 6, 0), ("NCV", 7, 7),
   ("bluetooth", 7, 6), ("celsius", 7, 5), ("fahrenheit", 7, 4),
   ("(low_batt)", 7, 3), ("volts", 7, 1), ("amps", 7, 0), ("auto_off", 8, 0)]

/-- TS04_Decoder.segments, lines 175-191. -/
def TS04_segments : List (Nat × Char) :=
  [(0b00000000, ' '), (0b11101011, '0'), (0b00001010, '1'), (0b10101101, '2'),
   (0b10001111, '3'), (0b01001110, '4'), (0b11000111, '5'), (0b11100111, '6'),
   (0b10001010, '7'), (0b11101111, '8'), (0b11001111, '9'), (0b01100001, 'L'),
   (0b11100101, 'E'), (0b11100100, 'F'), (0b00000100, '-')]

/-- TS04_Decoder.strings, lines 192-200. -/
def TS04_strings : List (String × PyVal) :=
  [("    ", PyVal.str "?"), (" EF ", PyVal.num 0), ("   -", PyVal.num 1),
   ("  --", PyVal.num 2), (" ---", PyVal.num 3), ("----", PyVal.num 4),
   (" 0L ", PyVal.inf)]

/-- TS04_Decoder.merge_digit, lines 201-202: KeyError on a missing segment
pattern is `none`. -/
def TS04_merge_digit (b1 b2 : Byte) : Option Char :=
  lookupSeg TS04_segments ((b1 &&& 0b11100000) ||| (b2 &&& 0b1111))

/-- TS04_Decoder.decode_digits, lines 203-208. -/
def TS04_decode_digits (data : List Byte) : Option String := do
  let c1 ← TS04_merge_digit (data.getD 1 0) (data.getD 2 0)
  let c2 ← TS04_merge_digit (data.getD 2 0) (data.getD 3 0)
  let c3 ← TS04_merge_digit (data.getD 3 0) (data.getD 4 0)
  let c4 ← TS04_merge_digit (data.getD 4 0) (data.getD 5 0)
  pure (String.mk [c1, c2, c3, c4])

/-- The literal frame b'SPP:sendData 08\\s\\n\\' compared at line 210. -/
def TS04_sppFrame : List Byte :=
  [0x53, 0x50, 0x50, 0x3A, 0x73, 0x65, 0x6E, 0x64, 0x44, 0x61, 0x74, 0x61,
   0x20, 0x30, 0x38, 0x5C, 0x73, 0x5C, 0x6E, 0x5C]

/-- TS04_Decoder.decode, lines 209-215; second component records whether a
diagnostic was printed (TS04 prints none). -/
def TS04_decode (data : List Byte) : DecodeRes × Bool :=
  if data = TS04_sppFrame then (DecodeRes.ok [absentT], false)
  else if data.length ≠ 9 then (DecodeRes.ok [absentT], false)
  else
    match decode_lcd TS04_flags [] TS04_decode_digits data with
    | none => (DecodeRes.exn, false)
    | some lcd =>
      match lcd_to_number TS04_strings lcd with
      | none => (DecodeRes.exn, false)
      | some v => (DecodeRes.ok [(some lcd, some v, some (lcd_to_units lcd))], false)

/- ===== HP90EPD ===== -/

/-- HP90EPD_Decoder.flags, lines 224-250. -/
def HP90EPD_flags : List (String × Nat × Nat) :=
  [("(auto)", 0, 1), ("AC", 0, 3), ("(hold)", 11, 0), ("mega", 10, 1),
   ("kilo", 9, 1), ("milli", 10, 3), ("micro", 9, 3), ("nano", 9, 2),
   ("diode", 9, 0), ("continuity", 10, 0), ("%duty", 10, 2),
   ("(relative)", 11, 1), ("ohms", 11, 2), ("farads", 11, 3),
   ("hertz", 12, 1), ("volts", 12, 2), ("amps", 12, 3), ("celsius", 13, 2),
   ("negative", 1, 3), ("/1000", 3, 3), ("/100", 5, 3), ("/10", 7, 3),
   ("(low_batt)", 12, 0), ("mystery_1", 0, 2), ("mystery_2", 13, 0)]

/-- HP90EPD_Decoder.segments, lines 251-264. -/
def HP90EPD_segments : List (Nat × Char) :=
  [(0b0000000, ' '), (0b1111101, '0'), (0b0000101, '1'), (0b1011011, '2'),
   (0b0011111, '3'), (0b0100111, '4'), (0b0111110, '5'), (0b1111110, '6'),
   (0b0010101, '7'), (0b1111111, '8'), (0b0111111, '9'), (0b1101000, 'L')]

/-- HP90EPD_Decoder.strings, lines 265-268. -/
def HP90EPD_strings : List (String × PyVal) :=
  [("    ", PyVal.str "?"), (" 0L ", PyVal.inf)]

/-- HP90EPD_Decoder.merge_digit, lines 269-271. -/
def HP90EPD_merge_digit (b1 b2 : Byte) : Option Char :=
  lookupSeg HP90EPD_segments (((b1 &&& 0b111) <<< 4) ||| (b2 &&& 0b1111))

/-- HP90EPD_Decoder.decode_digits, lines 272-277. -/
def HP90EPD_decode_digits (data : List Byte) : Option String := do
  let c1 ← HP90EPD_merge_digit (data.getD 1 0) (data.getD 2 0)
  let c2 ← HP90EPD_merge_digit (data.getD 3 0) (data.getD 4 0)
  let c3 ← HP90EPD_merge_digit (data.getD 5 0) (data.getD 6 0)
  let c4 ← HP90EPD_merge_digit (data.getD 7 0) (data.getD 8 0)
  pure (String.mk [c1, c2, c3, c4])

/-- HP90EPD_Decoder.decode, lines 278-292, as a function of the persistent
reassembly buffer (self.buffer): result, printed-diagnostic flag, new buffer.
An 8-byte packet is buffered; a 6-byte packet following a full buffer is
reassembled and decoded (the buffer is cleared at line 291, after decode_lcd
but before lcd_to_number, so a KeyError leaves the buffer while a ValueError
clears it); anything else clears the buffer and returns the bare tuple of
line 286. The DC flag is added for volts/amps readings without AC. -/
def HP90EPD_decode (buffer data : List Byte) : DecodeRes × Bool × List Byte :=
  if data.length = 8 then (DecodeRes.ok [absentT], false, data)
  else if data.length = 6 ∧ buffer.length = 8 then
    let d := buffer ++ data
    match decode_lcd HP90EPD_flags [] HP90EPD_decode_digits d with
    | none => (DecodeRes.exn, false, buffer)
    | some lcd0 =>
      let lcd := if (lcd0.flags.contains "volts" ∨ lcd0.flags.contains "amps")
                    ∧ ¬ lcd0.flags.contains "AC"
                 then ⟨lcd0.flags ++ ["DC"], lcd0.digits⟩ else lcd0
      match lcd_to_number HP90EPD_strings lcd with
      | none => (DecodeRes.exn, false, [])
      | some v => (DecodeRes.ok [(some lcd, some v, some (lcd_to_units lcd))], false, [])
  else (DecodeRes.bare, false, [])

/- ===== AN9002 ===== -/

/-- AN9002_Decoder.flip_bits, line 299: per-byte XOR whitening key. -/
def AN9002_flip : List Byte :=
  [0x1B, 0x84, 0x70, 0x55, 0xA2, 0xC1, 0x32, 0x71, 0x66, 0xAA, 0x3B]

/-- The de-whitening loop at lines 369-370: data[i] ^= key[i] for each key
index; guarded by the length-11 check, key and frame have equal length. -/
def applyFlip (key data : List Byte) : List Byte :=
  (List.range data.length).map (fun i => (data.getD i 0) ^^^ (key.getD i 0))

/-- AN9002_Decoder.flags, lines 300-331 (note the repeated milli/micro
entries: any of the listed bits sets the flag). -/
def AN9002_flags : List (String × Nat × Nat) :=
  [("(auto)", 10, 0), ("/1000", 4, 4), ("/100", 5, 4), ("/10", 6, 4),
   ("(relative)", 3, 1), ("(maximum)", 8, 0), ("(minimum)", 8, 1),
   ("AC", 8, 3), ("DC", 9, 6), ("hertz", 9, 0), ("%duty", 8, 2),
   ("(hold)", 7, 4), ("milli", 9, 5), ("negative", 3, 4), ("celsius", 7, 6),
   ("fahrenheit", 7, 5), ("volts", 9, 4), ("ohms", 9, 1), ("mega", 9, 3),
   ("kilo", 9, 2), ("farads", 8, 4), ("nano", 8, 7), ("micro", 8, 5),
   ("milli", 8, 6), ("amps", 9, 7), ("milli", 10, 3), ("micro", 10, 2),
   ("diode", 7, 7), ("continuity", 3, 3), ("(low_batt)", 3, 0)]

/-- AN9002_Decoder.segments, lines 332-338: the TS04 table extended with the
letters of "Auto" (keys disjoint from the TS04 keys). -/
def AN9002_segments : List (Nat × Char) :=
  TS04_segments ++ [(0b11101110, 'A'), (0b00100011, 'u'), (0b01100101, 't'), (0b00100111, 'o')]

/-- AN9002_Decoder.strings, lines 339-348. -/
def AN9002_strings : List (String × PyVal) :=
  [("Auto", PyVal.str "?"), ("    ", PyVal.str "?"), (" EF ", PyVal.num 0),
   ("-   ", PyVal.num 1), ("--  ", PyVal.num 2), ("--- ", PyVal.num 3),
   ("----", PyVal.num 4), (" 0L ", PyVal.inf)]

/-- AN9002_Decoder.mode_strings, lines 349-355. -/
def AN9002_mode_strings : List (String × String) :=
  [(" EF ", "NCV"), ("-   ", "NCV"), ("--  ", "NCV"), ("--- ", "NCV"), ("----", "NCV")]

/-- AN9002_Decoder.merge_digit, lines 356-358. -/
def AN9002_merge_digit (b1 b2 : Byte) : Option Char :=
  lookupSeg AN9002_segments ((b1 &&& 0b11100000) ||| (b2 &&& 0b1111))

/-- AN9002_Decoder.decode_digits, lines 359-364. -/
def AN9002_decode_digits (data : List Byte) : Option String := do
  let c1 ← AN9002_merge_digit (data.getD 3 0) (data.getD 4 0)
  let c2 ← AN9002_merge_digit (data.getD 4 0) (data.getD 5 0)
  let c3 ← AN9002_merge_digit (data.getD 5 0) (data.getD 6 0)
  let c4 ← AN9002_merge_digit (data.getD 6 0) (data.getD 7 0)
  pure (String.mk [c1, c2, c3, c4])

/-- AN9002_Decoder.decode, lines 365-372: length check, XOR de-whitening,
then the generic LCD decode. No diagnostic is printed on mismatch. -/
def AN9002_decode (data : List Byte) : DecodeRes × Bool :=
  if data.length ≠ 11 then (DecodeRes.ok [absentT], false)
  else
    let d := applyFlip AN9002_flip data
    match decode_lcd AN9002_flags AN9002_mode_strings AN9002_decode_digits d with
    | none => (DecodeRes.exn, false)
    | some lcd =>
      match lcd_to_number AN9002_strings lcd with
      | none => (DecodeRes.exn, false)
      | some v => (DecodeRes.ok [(some lcd, some v, some (lcd_to_units lcd))], false)

/- ===== UT383BT ===== -/

/-- UT383BT_Decoder.flags, lines 455-462. -/
def UT383BT_flags : List (String × Nat × Nat) :=
  [("(hold)", 16, 0), ("(maximum)", 16, 3), ("(minimum)", 16, 2), ("(low_batt)", 16, 6)]

/-- UT383BT_Decoder.strings, lines 463-465. -/
def UT383BT_strings : List (String × PyVal) :=
  [("    OL", PyVal.inf)]

/-- The frame template matched at line 469. -/
def UT383BT_pattern : List (Option Byte) :=
  [some 0xAA, some 0xBB, some 0x10, some 0x01, some 0x3A, none, none, none,
   none, none, none, some 0x4C, some 0x55, some 0x58, none, some 0x30,
   none, none, none]

/-- bytes(data[5:11]).decode('ascii') at line 474: fails (exception) when a
byte is not ASCII. -/
def asciiDecode (bs : List Byte) : Option String :=
  if bs.all (fun b => b < 128) then some (String.mk (bs.map Char.ofNat)) else none

/-- UT383BT_Decoder.decode, lines 467-475: pattern check (with a printed
diagnostic on mismatch), flags, forced lux flag, ASCII digits from bytes
5..10, then the generic number/units computation. -/
def UT383BT_decode (data : List Byte) : DecodeRes × Bool :=
  if ¬ matchPat UT383BT_pattern data then (DecodeRes.ok [absentT], true)
  else
    let fl := extract_flags UT383BT_flags data
    match asciiDecode ((data.drop 5).take 6) with
    | none => (DecodeRes.exn, false)
    | some ds =>
      let lcd : Lcd := ⟨fl ++ ["lux"], some ds⟩
      match lcd_to_number UT383BT_strings lcd with
      | none => (DecodeRes.exn, false)
      | some v => (DecodeRes.ok [(some lcd, some v, some (lcd_to_units lcd))], false)

/- ===== WT81B ===== -/

/-- WT81B_Decoder.flags, lines 419-422. -/
def WT81B_flags : List (String × Nat × Nat) :=
  [("x100", 3, 1), ("x10", 3, 0)]

/-- The frame template matched at line 442. -/
def WT81B_pattern : List (Option Byte) :=
  [some 0xFF, some 0x57, some 0x4C, none, none, none, none, none]

/-- WT81B_Decoder.decode, lines 440-447, with decode_lcd lines 424-439
inlined: a multi-reading model emitting one lux and one celsius reading from
every matching frame. The numeric lcd entries (temperature, lux) are carried
directly into the two triples; the overload sentinel 360600 lux becomes
infinity. A diagnostic is printed on mismatch. -/
def WT81B_decode (data : List Byte) : DecodeRes × Bool :=
  if ¬ matchPat WT81B_pattern data ∨ 3 < data.getD 3 0 then (DecodeRes.ok [absentT], true)
  else
    let fl := extract_flags WT81B_flags data
    let temp : ℚ := ((((data.getD 4 0) <<< 8) ||| data.getD 5 0 : Nat) : ℚ) / 10
    let lux0 : ℚ := ((((data.getD 6 0) <<< 8) ||| data.getD 7 0 : Nat) : ℚ) / 10
    let lux1 : ℚ := if fl.contains "x10" then lux0 * 10 else lux0
    let lux2 : ℚ := if fl.contains "x100" then lux1 * 100 else lux1
    let luxV : PyVal := if lux2 = 360600 then PyVal.inf else PyVal.num lux2
    let lcd : Lcd := ⟨fl, none⟩
    (DecodeRes.ok [(some lcd, some luxV, some "lux"),
                   (some lcd, some (PyVal.num temp), some "celsius")], false)

/- ===== Session model: notification callback, watchdog, gate, flush ===== -/

/-- One queued message (timestamp, address, decoded record). The record is
`none` when the callback enqueued a bare `None` (iterating HP90EPD's bare
tuple return yields three `None` items, lines 862-865). -/
structure QMsg where
  ts : Nat
  addr : String
  record : Option Triple
deriving Repr, DecidableEq

/-- The per-device callback state that BLE_Session._message_callback touches:
the shared message queue and this device's lastseen stamp (0 = never). -/
structure CallbackSt where
  queue : List QMsg
  lastseen : Nat
deriving Repr, DecidableEq

/-- BLE_Session._message_callback, lines 860-867, driven by a decode result.
For a list result every record is enqueued and lastseen is stamped after each
one. For the bare tuple, iteration yields `None` values: the first is enqueued
(line 865) and then `reporting(address, r[2])` raises TypeError at line 866,
so lastseen is never stamped. For an exception escaping decode nothing
happens at all. -/
def message_callback (res : DecodeRes) (ts : Nat) (addr : String) (st : CallbackSt) : CallbackSt :=
  match res with
  | DecodeRes.exn => st
  | DecodeRes.bare => ⟨st.queue ++ [⟨ts, addr, none⟩], st.lastseen⟩
  | DecodeRes.ok rs =>
    ⟨st.queue ++ rs.map (fun r => ⟨ts, addr, some r⟩),
     if rs.isEmpty then st.lastseen else ts⟩

/-- The liveness check of the steady-state loop, lines 809-813, at one tick;
time in tenths of a second (the loop wakes every 0.1 s; the window
`total_seconds() > 2` is `20 < now - lastseen`). A device configured with a
poll message runs _poll_device (lines 777-790) instead while the run signal
is set, which contains no liveness check, so its tick never fires the
watchdog. Returns (new lastseen, watchdog fired). -/
def livenessCheck (hasPoll : Bool) (lastseen now : Nat) : Nat × Bool :=
  if hasPoll then (lastseen, false)
  else if lastseen ≠ 0 ∧ 20 < now - lastseen then (0, true)
  else (lastseen, false)

/-- A run of the Active phase from connection time 0: at each tick the
arrival schedule may stamp lastseen (a delivered and fully processed frame),
then the loop body performs its liveness check. Result: (lastseen, time at
which the watchdog fired, if it has). Once fired the machine has left Active
(the raise at line 813), so the state is frozen. -/
def runActive (hasPoll : Bool) (arr : Nat → Bool) : Nat → Nat × Option Nat
  | 0 => (0, none)
  | t + 1 =>
    match runActive hasPoll arr t with
    | (s, some tau) => (s, some tau)
    | (s, none) =>
      let s1 := if arr (t + 1) then t + 1 else s
      let r := livenessCheck hasPoll s1 (t + 1)
      (r.1, if r.2 then some (t + 1) else none)

/-- Control phase of one device task in _connect_to_device, lines 791-836. -/
inductive Phase where
  | waiting
  | connecting
  | active
  | backoff (k : Nat)
  | stopped
deriving Repr, DecidableEq

/-- Events of the orchestrator-level interleaving semantics. `acquire i` is
task i winning the dbus lock (line 793); `subscribeOk i` is start_notify
succeeding, after which the lock is released (line 801); `connectFail i` is a
BleakError/TimeoutError inside the connect+subscribe section; `activeFail i`
is one raised after the task has released the gate (a poll write failing, or
the watchdog raise at line 813); `retryTick i` is one tenth of a second of
the 2-second backoff sleep (lines 823/832) elapsing, re-entering
_connect_to_device when it reaches zero; `clearRun` clears the run signal. -/
inductive Ev where
  | acquire (i : Nat)
  | subscribeOk (i : Nat)
  | connectFail (i : Nat)
  | activeFail (i : Nat)
  | retryTick (i : Nat)
  | clearRun
deriving Repr, DecidableEq

/-- Orchestrator state: who holds the admission gate (_dbus_lock), each
task's phase, and the run signal. -/
structure Sys where
  gate : Option Nat
  phases : List Phase
  running : Bool
deriving Repr, DecidableEq

def initSys (n : Nat) : Sys := ⟨none, List.replicate n Phase.waiting, true⟩

/-- One interleaving step. The exception handlers (lines 819-833) perform
`if self._dbus_lock.locked(): self._dbus_lock.release()`: the lock is
released whenever anyone holds it, which `connectFail` and `activeFail`
reproduce by clearing the gate unconditionally. An event whose task is not
in the required phase is a no-op. -/
def stepSys (s : Sys) : Ev → Sys
  | Ev.acquire i =>
    if s.phases.getD i Phase.stopped = Phase.waiting ∧ s.gate = none then
      if s.running then ⟨some i, s.phases.set i Phase.connecting, s.running⟩
      else ⟨s.gate, s.phases.set i Phase.stopped, s.running⟩
    else s
  | Ev.subscribeOk i =>
    if s.phases.getD i Phase.stopped = Phase.connecting then
      ⟨none, s.phases.set i Phase.active, s.running⟩
    else s
  | Ev.connectFail i =>
    if s.phases.getD i Phase.stopped = Phase.connecting then
      ⟨none, s.phases.set i (Phase.backoff 20), s.running⟩
    else s
  | Ev.activeFail i =>
    if s.phases.getD i Phase.stopped = Phase.active then
      ⟨none, s.phases.set i (Phase.backoff 20), s.running⟩
    else s
  | Ev.retryTick i =>
    match s.phases.getD i Phase.stopped with
    | Phase.backoff (k + 1) => ⟨s.gate, s.phases.set i (Phase.backoff k), s.running⟩
    | Phase.backoff 0 => ⟨s.gate, s.phases.set i Phase.waiting, s.running⟩
    | _ => s
  | Ev.clearRun => ⟨s.gate, s.phases, false⟩

def runSys (s : Sys) (es : List Ev) : Sys := es.foldl stepSys s

/-- One watchdog-retry cycle of a single-task system: connect, subscribe,
watchdog timeout, then the full 2-second (20 tick + release) backoff. -/
def retryCycle : List Ev :=
  [Ev.acquire 0, Ev.subscribeOk 0, Ev.activeFail 0] ++ List.replicate 21 (Ev.retryTick 0)

/- ===== register_device / message_flush (recycle path) ===== -/

/-- The state that message_flush touches, lines 880-894. -/
structure FlushSt where
  queue : List QMsg
  last_messages : List (String × QMsg)
  recycle : List String
deriving Repr, DecidableEq

/-- `self.last_messages[m[1]] = m`, line 884: dict update keyed by address. -/
def updateLast (lm : List (String × QMsg)) (m : QMsg) : List (String × QMsg) :=
  (m.addr, m) :: lm.eraseP (fun p => p.1 == m.addr)

/-- BLE_Session.register_device's recycle handling, lines 775-776: the body
is `if self.recycle: self.recycle.add(address)` — the condition tests the
recycle SET for non-emptiness, not the recycle parameter, which is unused. -/
def register_recycle (address : String) (_recycleFlag : Bool) (recycleSet : List String) : List String :=
  if recycleSet ≠ [] then address :: recycleSet else recycleSet

/-- BLE_Session.message_flush, lines 880-894 (drop=False; live_count and
last_flush not modeled): drain the queue recording each address's most recent
message, then iterate the recycle set; the loop body reads the bare name
`last_messages` (line 894), which is unbound in that scope, so the first
recycled address present in self.last_messages raises NameError. On success
returns the drained batch and the new state. -/
def message_flush (st : FlushSt) : Except String (List QMsg × FlushSt) :=
  let lm := st.queue.foldl updateLast st.last_messages
  if st.recycle.any (fun a => lm.any (fun p => p.1 == a)) then Except.error "NameError"
  else Except.ok (st.queue, ⟨[], lm, st.recycle⟩)

/- ===== Aggregator: statistics ===== -/

/-- Decoded payload of a message as the aggregator sees it: the absent triple
(None, None, None), or a reading with its numeric value and unit string (the
lcd component is unpacked and ignored by statistics, lines 1039-1041). -/
inductive MsgData where
  | absent
  | reading (n : ℚ) (units : String)
deriving Repr, DecidableEq

/-- A message in an aggregation batch: (timestamp, address, data), line 1038. -/
structure SMsg where
  ts : ℚ
  addr : String
  data : MsgData
deriving Repr, DecidableEq

/-- The characters before the first opening parenthesis
(`units.split('(')[0]`). -/
def beforeParen : List Char → List Char
  | [] => []
  | c :: cs => if c = '(' then [] else c :: beforeParen cs

/-- `units.split('(')[0].strip()`, line 1042: the unit label truncated at the
first parenthesis and stripped of surrounding whitespace. -/
def unitKey (units : String) : String :=
  String.mk (trimChars (beforeParen units.toList))

/-- Append one sample to its (address, unit) column, preserving first-seen
column order and per-column arrival order (defaultdict(list), line 1036). -/
def addCol (cols : List ((String × String) × List (ℚ × ℚ)))
    (key : String × String) (v : ℚ × ℚ) : List ((String × String) × List (ℚ × ℚ)) :=
  match cols with
  | [] => [(key, [v])]
  | (k, vs) :: rest =>
    if k = key then (k, vs ++ [v]) :: rest else (k, vs) :: addCol rest key v

/-- One iteration of the column-building loop of statistics, lines 1037-1043:
a record equal to the absent triple is skipped (line 1039-1040). -/
def buildStep (cols : List ((String × String) × List (ℚ × ℚ))) (m : SMsg) :
    List ((String × String) × List (ℚ × ℚ)) :=
  match m.data with
  | MsgData.absent => cols
  | MsgData.reading n units => addCol cols (m.addr, unitKey units) (m.ts, n)

/-- The column-building loop of statistics, lines 1037-1043. -/
def buildColumns (messages : List SMsg) : List ((String × String) × List (ℚ × ℚ)) :=
  messages.foldl buildStep []

/-- Python round(): nearest integer, ties to the even neighbor. -/
def pyRound (q : ℚ) : ℤ :=
  if q - (⌊q⌋ : ℚ) < 1/2 then ⌊q⌋
  else if 1/2 < q - (⌊q⌋ : ℚ) then ⌊q⌋ + 1
  else if ⌊q⌋ % 2 = 0 then ⌊q⌋ else ⌊q⌋ + 1

/-- Insertion into a sorted list, ascending. -/
def insertSorted (x : ℚ) : List ℚ → List ℚ
  | [] => [x]
  | y :: ys => if x ≤ y then x :: y :: ys else y :: insertSorted x ys

/-- Python sorted() on rationals, line 1047. -/
def pySorted (l : List ℚ) : List ℚ := l.foldr insertSorted []

/-- Python sum(), via mean at line 1032. -/
def listSum (l : List ℚ) : ℚ := l.foldl (fun a b => a + b) 0

/-- Python min()/max() over a nonempty list. -/
def pyMin (l : List ℚ) : ℚ :=
  match l with
  | [] => 0
  | x :: xs => xs.foldl min x

def pyMax (l : List ℚ) : ℚ :=
  match l with
  | [] => 0
  | x :: xs => xs.foldl max x

/-- One output row of statistics, lines 1051-1062. The source stores the
population standard deviation `math.sqrt(mean([(v-m)**2 ...]))`; this model
stores its square `deviation_sq` so the record stays within exact rational
arithmetic — the zeroing for identical samples (line 1061-1062) is applied to
it in the same way. -/
structure Stats where
  timestamp : ℚ
  duration : ℚ
  address : String
  unit : String
  mean : ℚ
  samples : Nat
  deviation_sq : ℚ
  minimum : ℚ
  quartile1 : ℚ
  median : ℚ
  quartile3 : ℚ
  maximum : ℚ
deriving Repr, DecidableEq

/-- The per-column statistics computation, lines 1046-1063: sort the samples,
take count, mean, population variance, min/max and the nearest-rank
25th/50th/75th percentiles — `int(round(len*0.25))`, `len//2`, and
`min(int(round(len*0.75)), len-1)` — with Python round's ties-to-even.
`none` is the (unreachable) `len(values)==0` continue at line 1048-1049. -/
def colStats (start stop : ℚ) (name : String × String) (tvs : List (ℚ × ℚ)) : Option Stats :=
  let values := pySorted (tvs.map (fun tv => tv.2))
  if values.length = 0 then none
  else
    let n := values.length
    let m := listSum values / (n : ℚ)
    let dev2 := listSum (values.map (fun v => (v - m) ^ 2)) / (n : ℚ)
    some { timestamp := stop
           duration := stop - start
           address := name.1
           unit := name.2
           mean := m
           samples := n
           deviation_sq := if pyMin values = pyMax values then 0 else dev2
           minimum := pyMin values
           quartile1 := values.getD (pyRound ((n : ℚ) * (1/4))).toNat 0
           median := values.getD (n / 2) 0
           quartile3 := values.getD (min (pyRound ((n : ℚ) * (3/4))).toNat (n - 1)) 0
           maximum := pyMax values }

/-- statistics, lines 1035-1063: group the batch by (address, stripped unit),
then yield one row per nonempty column. An all-absent batch yields no
columns, hence no rows (the `if not columns: return []` at line 1044). -/
def statistics (messages : List SMsg) (start stop : ℚ) : List Stats :=
  (buildColumns messages).filterMap (fun c => colStats start stop c.1 c.2)

/- ===== Derived predicates used by the verification ===== -/

/-- Value and unit of one reading triple are both present or both absent. -/
def pairedVU (t : Triple) : Bool := t.2.1.isSome == t.2.2.isSome

/-- `pairedVU` over every triple of a decode result (the bare-tuple and
exception outcomes contribute no triples). -/
def resPaired (res : DecodeRes) : Bool :=
  match res with
  | DecodeRes.ok rs => rs.all pairedVU
  | _ => true

/-- `pairedVU` over every record of a message queue; a record whose payload
is a bare `None` carries neither a value nor a unit. -/
def queuePaired (q : List QMsg) : Bool :=
  q.all (fun m =>
    match m.record with
    | none => true
    | some t => pairedVU t)

/-- The admission-gate consistency invariant: any task inside the
connect-to-subscribed critical section is the gate holder. -/
def gateInv (s : Sys) : Prop :=
  ∀ i, s.phases.getD i Phase.stopped = Phase.connecting → s.gate = some i

/-- Event traces in which every transport failure strikes a task that is
still inside the connect-to-subscribed critical section. -/
def noActiveFail (es : List Ev) : Bool :=
  es.all (fun e =>
    match e with
    | Ev.activeFail _ => false
    | _ => true)

/- ===================== Theorems ===================== -/

/-- C1 counterexample: a 5-byte HP90EPD frame fails the shape check, yet
decode neither logs a diagnostic nor returns a sequence containing one absent
triple — it returns the bare tuple (None, None, None) of line 286, whose
iteration by the caller yields three separate None items. -/
theorem c1_counterexample :
    HP90EPD_decode [] [0, 0, 0, 0, 0] = (DecodeRes.bare, false, []) ∧
    DecodeRes.bare ≠ DecodeRes.ok [absentT] := by
  exact ⟨rfl, by decide⟩

/-- C1 amended: for every embedded decoder and every frame failing its shape
check, decode never raises and yields no reading: UT383BT and WT81B log a
diagnostic and return a single absent triple; TS04 and AN9002 return a single
absent triple silently; HP90EPD silently returns the bare tuple
(None, None, None) on a mismatch outside reassembly (and a single absent
triple while buffering an 8-byte first packet). -/
theorem c1_amended_theorem :
    (∀ data : List Byte, data ≠ TS04_sppFrame → data.length ≠ 9 →
      TS04_decode data = (DecodeRes.ok [absentT], false)) ∧
    (∀ data : List Byte, data.length ≠ 11 →
      AN9002_decode data = (DecodeRes.ok [absentT], false)) ∧
    (∀ buffer data : List Byte, data.length ≠ 8 →
      ¬ (data.length = 6 ∧ buffer.length = 8) →
      HP90EPD_decode buffer data = (DecodeRes.bare, false, [])) ∧
    (∀ data : List Byte, matchPat UT383BT_pattern data = false →
      UT383BT_decode data = (DecodeRes.ok [absentT], true)) ∧
    (∀ data : List Byte, matchPat WT81B_pattern data = false →
      WT81B_decode data = (DecodeRes.ok [absentT], true)) := by
  refine ⟨?_, ?_, ?_, ?_, ?_⟩
  · intro data h1 h2
    simp [TS04_decode, h1, h2]
  · intro data h
    simp [AN9002_decode, h]
  · intro buffer data h1 h2
    simp [HP90EPD_decode, h1, h2]
  · intro data h
    simp [UT383BT_decode, h]
  · intro data h
    simp [WT81B_decode, h]

/-- C1 witness: the amended theorem applied to a concrete short frame for
each decoder. -/
theorem c1_witness :
    TS04_decode [1] = (DecodeRes.ok [absentT], false) ∧
    AN9002_decode [1] = (DecodeRes.ok [absentT], false) ∧
    HP90EPD_decode [] [1] = (DecodeRes.bare, false, []) ∧
    UT383BT_decode [1] = (DecodeRes.ok [absentT], true) ∧
    WT81B_decode [1] = (DecodeRes.ok [absentT], true) :=
  ⟨c1_amended_theorem.1 [1] (by decide) (by decide),
   c1_amended_theorem.2.1 [1] (by decide),
   c1_amended_theorem.2.2.1 [] [1] (by decide) (by decide),
   c1_amended_theorem.2.2.2.1 [1] (by decide),
   c1_amended_theorem.2.2.2.2 [1] (by decide)⟩

/-- C2 counterexample: a 9-byte TS04 frame passing the shape check whose
merged digit pattern 0b00100000 has no SegmentTable entry makes decode raise
an uncaught KeyError — the miss is neither logged nor surfaced as an absent
triple. -/
theorem c2_counterexample :
    TS04_decode [0, 32, 0, 0, 0, 0, 0, 0, 0] = (DecodeRes.exn, false) ∧
    DecodeRes.exn ≠ DecodeRes.ok [absentT] := by
  exact ⟨by decide, by decide⟩

/-- C2 amended: a frame that passes the shape check but whose merged digit
byte-pair pattern misses the SegmentTable makes decode raise an uncaught
KeyError (modeled as the exceptional result): the miss escapes the decode
call without a log and is not surfaced as an absent triple. -/
theorem c2_amended_theorem :
    (∀ data : List Byte, data ≠ TS04_sppFrame → data.length = 9 →
      TS04_decode_digits data = none → TS04_decode data = (DecodeRes.exn, false)) ∧
    (∀ data : List Byte, data.length = 11 →
      AN9002_decode_digits (applyFlip AN9002_flip data) = none →
      AN9002_decode data = (DecodeRes.exn, false)) := by
  constructor
  · intro data h1 h2 h3
    simp [TS04_decode, h1, h2, decode_lcd, h3]
  · intro data h1 h2
    simp [AN9002_decode, h1, decode_lcd, h2]

/-- C2 witness: the amended theorem applied to concrete miss frames for TS04
and AN9002. -/
theorem c2_witness :
    TS04_decode [0, 64, 0, 0, 0, 0, 0, 0, 0] = (DecodeRes.exn, false) ∧
    AN9002_decode (List.replicate 11 0) = (DecodeRes.exn, false) :=
  ⟨c2_amended_theorem.1 [0, 64, 0, 0, 0, 0, 0, 0, 0] (by decide) (by decide) (by decide),
   c2_amended_theorem.2 (List.replicate 11 0) (by decide) (by decide)⟩

/-- C6: the recycle path is broken in two places, as the spec's own open
question suspects. Registering an address with the recycle flag set on a
fresh session does not mark it (line 775 tests the recycle set, not the
flag), so a flush re-enqueues nothing; and were the recycle set ever
non-empty, the re-enqueue loop would raise NameError on the unbound name
last_messages (line 894) instead of re-enqueueing the reading. -/
theorem c6_theorem :
    register_recycle "AA" true [] = [] ∧
    message_flush ⟨[⟨5, "AA", none⟩], [], register_recycle "AA" true []⟩ =
      Except.ok ([⟨5, "AA", none⟩], ⟨[], [("AA", ⟨5, "AA", none⟩)], []⟩) ∧
    message_flush ⟨[⟨5, "AA", none⟩], [], ["AA"]⟩ = Except.error "NameError" := by
  exact ⟨by decide, by rfl, by rfl⟩

/-- Helper: every TS04 decode result keeps value and unit paired. -/
theorem TS04_resPaired (data : List Byte) : resPaired (TS04_decode data).1 = true := by
  unfold TS04_decode
  split
  · rfl
  split
  · rfl
  split
  · rfl
  split
  · rfl
  · rfl

/-- Helper: every AN9002 decode result keeps value and unit paired. -/
theorem AN9002_resPaired (data : List Byte) : resPaired (AN9002_decode data).1 = true := by
  unfold AN9002_decode
  split
  · rfl
  dsimp only
  split
  · rfl
  split
  · rfl
  · rfl

/-- Helper: every HP90EPD decode result keeps value and unit paired. -/
theorem HP90EPD_resPaired (buffer data : List Byte) :
    resPaired (HP90EPD_decode buffer data).1 = true := by
  unfold HP90EPD_decode
  split
  · rfl
  split
  · dsimp only
    split
    · rfl
    split
    · rfl
    · rfl
  · rfl

/-- Helper: every UT383BT decode result keeps value and unit paired. -/
theorem UT383BT_resPaired (data : List Byte) : resPaired (UT383BT_decode data).1 = true := by
  unfold UT383BT_decode
  split
  · rfl
  dsimp only
  split
  · rfl
  split
  · rfl
  · rfl

/-- Helper: every WT81B decode result keeps value and unit paired. -/
theorem WT81B_resPaired (data : List Byte) : resPaired (WT81B_decode data).1 = true := by
  unfold WT81B_decode
  split
  · rfl
  · rfl

/-- Helper: a callback run from an empty queue enqueues only records with
value and unit paired, given a decode result with that property. -/
theorem callback_queuePaired (res : DecodeRes) (ts ls : Nat) (addr : String)
    (h : resPaired res = true) :
    queuePaired (message_callback res ts addr ⟨[], ls⟩).queue = true := by
  cases res with
  | ok rs =>
    show queuePaired ([] ++ rs.map fun r => ⟨ts, addr, some r⟩) = true
    rw [List.nil_append, queuePaired]
    induction rs with
    | nil => rfl
    | cons r rest ih =>
      simp only [resPaired, List.all_cons, Bool.and_eq_true] at h
      simp only [List.map_cons, List.all_cons, Bool.and_eq_true]
      exact ⟨h.1, ih h.2⟩
  | bare => rfl
  | exn => rfl

/-- C3: for every frame, every reading triple produced by any embedded
decoder (including the multi-reading WT81B) has its numeric value and its
unit label both present or both absent, and every record the notification
callback enqueues into the reading stream preserves that pairing (a bare
`None` record carries neither). -/
theorem c3_theorem : ∀ (buffer data : List Byte) (ts ls : Nat) (addr : String),
    resPaired (TS04_decode data).1 = true ∧
    resPaired (AN9002_decode data).1 = true ∧
    resPaired (HP90EPD_decode buffer data).1 = true ∧
    resPaired (UT383BT_decode data).1 = true ∧
    resPaired (WT81B_decode data).1 = true ∧
    queuePaired (message_callback (TS04_decode data).1 ts addr ⟨[], ls⟩).queue = true ∧
    queuePaired (message_callback (HP90EPD_decode buffer data).1 ts addr ⟨[], ls⟩).queue = true ∧
    queuePaired (message_callback (WT81B_decode data).1 ts addr ⟨[], ls⟩).queue = true := by
  intro buffer data ts ls addr
  exact ⟨TS04_resPaired data, AN9002_resPaired data, HP90EPD_resPaired buffer data,
    UT383BT_resPaired data, WT81B_resPaired data,
    callback_queuePaired _ ts ls addr (TS04_resPaired data),
    callback_queuePaired _ ts ls addr (HP90EPD_resPaired buffer data),
    callback_queuePaired _ ts ls addr (WT81B_resPaired data)⟩

/-- C4 counterexample: a received 9-byte TS04 frame whose decode raises
(segment-pattern miss) does not refresh lastseen — the callback aborts before
line 867, leaving lastseen at 0 although a frame arrived at time 7. -/
theorem c4_counterexample :
    (TS04_decode [0, 96, 0, 0, 0, 0, 0, 0, 0]).1 = DecodeRes.exn ∧
    message_callback (TS04_decode [0, 96, 0, 0, 0, 0, 0, 0, 0]).1 7 "aa" ⟨[], 0⟩ =
      ⟨[], 0⟩ ∧
    (0 : Nat) ≠ 7 := by
  exact ⟨by decide, by decide, by decide⟩

/-- C4 amended: lastseen is refreshed by every received frame whose decode
returns a result list — including frames decoded to the absent triple — but
not by a frame whose decode raises, nor by HP90EPD's bare-tuple return (the
callback crashes in reporting before the stamp at line 867); and the watchdog
resets lastseen to 0 (never) exactly when it declares the connection lost,
namely when a stamped lastseen is more than 2 seconds (20 ticks) old. -/
theorem c4_amended_theorem : ∀ (data : List Byte) (ts ls : Nat) (addr : String)
    (q : List QMsg) (s now : Nat),
    ((message_callback (TS04_decode data).1 ts addr ⟨q, ls⟩).lastseen = ts ∨
      (TS04_decode data).1 = DecodeRes.exn) ∧
    ((message_callback (AN9002_decode data).1 ts addr ⟨q, ls⟩).lastseen = ts ∨
      (AN9002_decode data).1 = DecodeRes.exn) ∧
    (message_callback DecodeRes.bare ts addr ⟨q, ls⟩).lastseen = ls ∧
    (message_callback DecodeRes.exn ts addr ⟨q, ls⟩).lastseen = ls ∧
    ((livenessCheck false s now).2 = true ↔ s ≠ 0 ∧ 20 < now - s) ∧
    ((livenessCheck false s now).2 = true → (livenessCheck false s now).1 = 0) ∧
    ((livenessCheck false s now).2 = false → (livenessCheck false s now).1 = s) := by
  intro data ts ls addr q s now
  refine ⟨?_, ?_, rfl, rfl, ?_, ?_, ?_⟩
  · unfold TS04_decode
    split
    · left; rfl
    split
    · left; rfl
    split
    · right; rfl
    split
    · right; rfl
    · left; rfl
  · unfold AN9002_decode
    split
    · left; rfl
    dsimp only
    split
    · right; rfl
    split
    · right; rfl
    · left; rfl
  · unfold livenessCheck
    simp only [Bool.false_eq_true, if_false]
    split
    next hc => simpa using hc
    next hc => simpa using hc
  · unfold livenessCheck
    simp only [Bool.false_eq_true, if_false]
    split
    · intro _; rfl
    · simp
  · unfold livenessCheck
    simp only [Bool.false_eq_true, if_false]
    split
    · simp
    · intro _; rfl

/-- C4 witness: the amended theorem applied at a concrete frame, timestamps
and watchdog state; the implications are discharged at a stale lastseen. -/
theorem c4_witness :
    ((message_callback (TS04_decode [1, 2, 3]).1 9 "aa" ⟨[], 0⟩).lastseen = 9 ∨
      (TS04_decode [1, 2, 3]).1 = DecodeRes.exn) ∧
    (livenessCheck false 1 30).1 = 0 := by
  refine ⟨(c4_amended_theorem [1, 2, 3] 9 0 "aa" [] 1 30).1, ?_⟩
  exact (c4_amended_theorem [1, 2, 3] 9 0 "aa" [] 1 30).2.2.2.2.2.1 (by decide)

/-- Helper: the liveness check of a device without a poll message. -/
theorem livenessCheck_false (s now : Nat) :
    livenessCheck false s now = if s ≠ 0 ∧ 20 < now - s then (0, true) else (s, false) := rfl

/-- C5 counterexample: a device configured with a poll message whose single
frame arrived at tick 1 (deciseconds) is 2.9 seconds silent at tick 30 —
well beyond the 2-second window — yet the watchdog has not fired and the
machine never enters the retry path: while the run signal is set such a
device sits in _poll_device, which contains no liveness check. -/
theorem c5_counterexample :
    runActive true (fun t => decide (t = 1)) 30 = (1, none) ∧ 20 < 30 - 1 := by
  exact ⟨by decide, by decide⟩

/-- Helper: under a 1.9-second notification cadence the watchdog never
fires and lastseen tracks the most recent arrival. -/
theorem runActive_arr19 (t : Nat) :
    runActive false (fun u => decide (u % 19 = 0 ∧ u ≠ 0)) t = (19 * (t / 19), none) := by
  induction t with
  | zero => rfl
  | succ t ih =>
    rw [runActive, ih]
    dsimp only
    by_cases h : (t + 1) % 19 = 0 ∧ (t + 1) ≠ 0
    · rw [if_pos (decide_eq_true h), livenessCheck_false]
      rw [if_neg (by omega : ¬ ((t + 1) ≠ 0 ∧ 20 < (t + 1) - (t + 1)))]
      have h19 : 19 * ((t + 1) / 19) = t + 1 := by omega
      simp [h19]
    · rw [if_neg (by simpa using h :
        ¬ ((fun u => decide (u % 19 = 0 ∧ u ≠ 0)) (t + 1) = true)), livenessCheck_false]
      rw [if_neg (by omega : ¬ (19 * (t / 19) ≠ 0 ∧ 20 < (t + 1) - 19 * (t / 19)))]
      have h19 : 19 * ((t + 1) / 19) = 19 * (t / 19) := by omega
      simp [h19]

/-- Helper: one full watchdog-timeout/backoff cycle of a single-device
system returns it to its initial state. -/
theorem runSys_retryCycle : runSys (initSys 1) retryCycle = initSys 1 := by decide

/-- Helper: any number of watchdog-retry cycles leaves the single-device
system attempting again — the retry is unbounded. -/
theorem runSys_cycles (k : Nat) :
    runSys (initSys 1) (List.flatten (List.replicate k retryCycle)) = initSys 1 := by
  induction k with
  | zero => rfl
  | succ k ih =>
    have hsplit : List.flatten (List.replicate (k + 1) retryCycle) =
        retryCycle ++ List.flatten (List.replicate k retryCycle) := by
      rw [List.replicate_succ, List.flatten_cons]
    rw [hsplit]
    show List.foldl stepSys (initSys 1)
      (retryCycle ++ List.flatten (List.replicate k retryCycle)) = initSys 1
    rw [List.foldl_append]
    have hc : List.foldl stepSys (initSys 1) retryCycle = initSys 1 := runSys_retryCycle
    rw [hc]
    exact ih

/-- C5 amended: for a device without a poll message, (i) while the watchdog
has not fired a stamped lastseen is never more than 2 seconds (20 ticks)
stale — silence beyond the window forces the timeout; (ii) a device
notifying every 1.9 seconds never triggers the watchdog; (iii) each timeout
leads through the fixed 2-second backoff back to a fresh connection attempt,
repeated for any number of cycles while the run signal is set; and (iv) once
the run signal is cleared the next attempt stops instead of reconnecting.
Devices with a poll message never run the liveness check while the run
signal is set (see the counterexample). -/
theorem c5_amended_theorem :
    (∀ (arr : Nat → Bool) (t s : Nat),
      runActive false arr t = (s, none) → s ≠ 0 → t - s ≤ 20) ∧
    (∀ t : Nat, (runActive false (fun u => decide (u % 19 = 0 ∧ u ≠ 0)) t).2 = none) ∧
    (∀ k : Nat, runSys (initSys 1) (List.flatten (List.replicate k retryCycle)) = initSys 1) ∧
    (∀ k : Nat,
      runSys (initSys 1)
          (List.flatten (List.replicate k retryCycle) ++ [Ev.clearRun, Ev.acquire 0]) =
        ⟨none, [Phase.stopped], false⟩) := by
  refine ⟨?_, ?_, runSys_cycles, ?_⟩
  · intro arr t s h hs
    cases t with
    | zero =>
      rw [runActive] at h
      cases h
      exact absurd rfl hs
    | succ t =>
      rw [runActive] at h
      rcases hprev : runActive false arr t with ⟨s0, fired⟩
      rw [hprev] at h
      cases fired with
      | some tau => simp at h
      | none =>
        dsimp only at h
        by_cases harr : arr (t + 1) = true
        · rw [if_pos harr, livenessCheck_false] at h
          by_cases hc : (t + 1) ≠ 0 ∧ 20 < (t + 1) - (t + 1)
          · rw [if_pos hc] at h
            simp at h
          · rw [if_neg hc] at h
            simp only [Prod.mk.injEq] at h
            omega
        · rw [if_neg harr, livenessCheck_false] at h
          by_cases hc : s0 ≠ 0 ∧ 20 < (t + 1) - s0
          · rw [if_pos hc] at h
            simp at h
          · rw [if_neg hc] at h
            simp only [Prod.mk.injEq] at h
            omega
  · intro t
    rw [runActive_arr19]
  · intro k
    show List.foldl stepSys (initSys 1)
      (List.flatten (List.replicate k retryCycle) ++ [Ev.clearRun, Ev.acquire 0]) =
      ⟨none, [Phase.stopped], false⟩
    rw [List.foldl_append]
    have h1 : List.foldl stepSys (initSys 1) (List.flatten (List.replicate k retryCycle)) =
        initSys 1 := runSys_cycles k
    rw [h1]
    decide

/-- C5 witness: the amended theorem applied at a concrete arrival schedule
(one frame at tick 1, examined at tick 5) and at two retry cycles. -/
theorem c5_witness :
    (5 : Nat) - 1 ≤ 20 ∧
    runSys (initSys 1) (List.flatten (List.replicate 2 retryCycle)) = initSys 1 := by
  constructor
  · exact c5_amended_theorem.1 (fun u => decide (u = 1)) 5 1 (by decide) (by decide)
  · exact c5_amended_theorem.2.2.1 2

/-- Helper: getD after set at the same (in-range) index. -/
theorem getD_set_eq {α : Type} (l : List α) (i : Nat) (a d : α) (h : i < l.length) :
    (l.set i a).getD i d = a := by
  induction l generalizing i with
  | nil => simp at h
  | cons x xs ih =>
    cases i with
    | zero => rfl
    | succ i =>
      simp only [List.set, List.getD_cons_succ]
      exact ih i (by simpa using h)

/-- Helper: getD after set at a different index. -/
theorem getD_set_ne {α : Type} (l : List α) (i j : Nat) (a d : α) (h : i ≠ j) :
    (l.set i a).getD j d = l.getD j d := by
  induction l generalizing i j with
  | nil => rfl
  | cons x xs ih =>
    cases i with
    | zero =>
      cases j with
      | zero => exact absurd rfl h
      | succ j => rfl
    | succ i =>
      cases j with
      | zero => rfl
      | succ j =>
        simp only [List.set, List.getD_cons_succ]
        exact ih i j (fun hh => h (by rw [hh]))

/-- Helper: getD on a replicated list. -/
theorem getD_replicate {α : Type} (k i : Nat) (a d : α) :
    (List.replicate k a).getD i d = if i < k then a else d := by
  induction k generalizing i with
  | zero => simp
  | succ k ih =>
    cases i with
    | zero => simp [List.replicate_succ]
    | succ i =>
      simp only [List.replicate_succ, List.getD_cons_succ, ih]
      by_cases h : i < k
      · rw [if_pos h, if_pos (by omega)]
      · rw [if_neg h, if_neg (by omega)]

/-- Helper: a getD that fails to yield the default is in range. -/
theorem getD_ne_default {α : Type} (l : List α) (i : Nat) (d : α) (h : l.getD i d ≠ d) :
    i < l.length := by
  by_contra hge
  exact h (List.getD_eq_default l d (by omega))

/-- Helper: every event except an out-of-critical-section failure preserves
the gate-consistency invariant. -/
theorem stepSys_gateInv (s : Sys) (e : Ev) (hInv : gateInv s)
    (hE : (match e with | Ev.activeFail _ => false | _ => true) = true) :
    gateInv (stepSys s e) := by
  cases e with
  | acquire i =>
    simp only [stepSys]
    split
    next hcond =>
      split
      next =>
        intro j hj
        by_cases hij : i = j
        · subst hij; rfl
        · rw [getD_set_ne s.phases i j _ _ hij] at hj
          have hg := hInv j hj
          rw [hcond.2] at hg
          cases hg
      next =>
        intro j hj
        by_cases hij : i = j
        · subst hij
          rw [getD_set_eq s.phases i _ _
            (getD_ne_default _ _ _ (by rw [hcond.1]; intro hh; cases hh))] at hj
          cases hj
        · rw [getD_set_ne s.phases i j _ _ hij] at hj
          exact hInv j hj
    next => exact hInv
  | subscribeOk i =>
    simp only [stepSys]
    split
    next hcond =>
      intro j hj
      by_cases hij : i = j
      · subst hij
        rw [getD_set_eq s.phases i _ _
          (getD_ne_default _ _ _ (by rw [hcond]; intro hh; cases hh))] at hj
        cases hj
      · rw [getD_set_ne s.phases i j _ _ hij] at hj
        have h1 := hInv j hj
        have h2 := hInv i hcond
        rw [h2] at h1
        cases h1
        exact absurd rfl hij
    next => exact hInv
  | connectFail i =>
    simp only [stepSys]
    split
    next hcond =>
      intro j hj
      by_cases hij : i = j
      · subst hij
        rw [getD_set_eq s.phases i _ _
          (getD_ne_default _ _ _ (by rw [hcond]; intro hh; cases hh))] at hj
        cases hj
      · rw [getD_set_ne s.phases i j _ _ hij] at hj
        have h1 := hInv j hj
        have h2 := hInv i hcond
        rw [h2] at h1
        cases h1
        exact absurd rfl hij
    next => exact hInv
  | activeFail i => cases hE
  | retryTick i =>
    simp only [stepSys]
    split
    next k heq =>
      intro j hj
      by_cases hij : i = j
      · subst hij
        rw [getD_set_eq s.phases i _ _
          (getD_ne_default _ _ _ (by rw [heq]; intro hh; cases hh))] at hj
        cases hj
      · rw [getD_set_ne s.phases i j _ _ hij] at hj
        exact hInv j hj
    next heq =>
      intro j hj
      by_cases hij : i = j
      · subst hij
        rw [getD_set_eq s.phases i _ _
          (getD_ne_default _ _ _ (by rw [heq]; intro hh; cases hh))] at hj
        cases hj
      · rw [getD_set_ne s.phases i j _ _ hij] at hj
        exact hInv j hj
    next => exact hInv
  | clearRun =>
    intro j hj
    exact hInv j hj

/-- Helper: the invariant is preserved along any trace free of
out-of-critical-section failures. -/
theorem runSys_gateInv (es : List Ev) : ∀ (s : Sys), gateInv s → noActiveFail es = true →
    gateInv (runSys s es) := by
  induction es with
  | nil => intro s h _; exact h
  | cons e es ih =>
    intro s h hn
    rw [noActiveFail, List.all_cons, Bool.and_eq_true] at hn
    exact ih (stepSys s e) (stepSys_gateInv s e h hn.1) hn.2

/-- Helper: the initial system satisfies the gate invariant. -/
theorem initSys_gateInv (n : Nat) : gateInv (initSys n) := by
  intro i hi
  rw [initSys] at hi
  rw [getD_replicate] at hi
  split at hi
  · cases hi
  · cases hi

/-- C7 counterexample: three concurrent device tasks. Task 0 connects,
subscribes (releasing the gate) and reaches the steady state; task 1 then
acquires the gate and enters the critical section; task 0 now fails in the
steady state (e.g. the watchdog raise at line 813) and its handler executes
`if locked(): release()`, releasing the gate task 1 still holds; task 2
acquires the freed gate — leaving tasks 1 and 2 inside the
connect-to-subscribed critical section at the same instant. -/
theorem c7_counterexample :
    (runSys (initSys 3) [Ev.acquire 0, Ev.subscribeOk 0, Ev.acquire 1, Ev.activeFail 0,
        Ev.acquire 2]).phases.getD 1 Phase.stopped = Phase.connecting ∧
    (runSys (initSys 3) [Ev.acquire 0, Ev.subscribeOk 0, Ev.acquire 1, Ev.activeFail 0,
        Ev.acquire 2]).phases.getD 2 Phase.stopped = Phase.connecting ∧
    (1 : Nat) ≠ 2 := by
  exact ⟨by decide, by decide, by decide⟩

/-- C7 amended: each task acquires the gate before connecting and releases
it on subscription success (before init and polling) or on a failure inside
the critical section; provided every transport failure strikes inside the
connect-to-subscribed critical section, at most one task occupies that
section at any instant. (A failure in the steady state instead releases a
gate another task may hold — see the counterexample.) -/
theorem c7_amended_theorem : ∀ (n : Nat) (es : List Ev) (i j : Nat),
    noActiveFail es = true →
    (runSys (initSys n) es).phases.getD i Phase.stopped = Phase.connecting →
    (runSys (initSys n) es).phases.getD j Phase.stopped = Phase.connecting →
    i = j := by
  intro n es i j hn hi hj
  have hInv := runSys_gateInv es (initSys n) (initSys_gateInv n) hn
  have h1 := hInv i hi
  have h2 := hInv j hj
  rw [h1] at h2
  cases h2
  rfl

/-- C7 witness: the amended theorem applied to a concrete failure-free trace
in which task 1 occupies the critical section. -/
theorem c7_witness : (1 : Nat) = 1 :=
  c7_amended_theorem 2 [Ev.acquire 1] 1 1 (by decide) (by decide) (by decide)

/-- C8 counterexample: HP90EPD reassembly state breaks byte-for-byte
determinism. After buffering an 8-byte first packet, the same all-zero
6-byte frame decodes to a reading on the first call but to the bare tuple
on the second (the first call consumed the buffer). -/
theorem c8_counterexample :
    (HP90EPD_decode (HP90EPD_decode [] (List.replicate 8 0)).2.2 (List.replicate 6 0)).1 ≠
    (HP90EPD_decode
        (HP90EPD_decode (HP90EPD_decode [] (List.replicate 8 0)).2.2
          (List.replicate 6 0)).2.2
        (List.replicate 6 0)).1 := by
  decide

/-- C8 amended: the decoders without persistent state are pure functions of
the frame bytes (their embeddings take only the frame), so identical bytes
always yield identical results; for the reassembly model HP90EPD two
successive calls on identical bytes agree whenever the frame length is not
6, while a 6-byte frame arriving twice can decode differently because the
first call consumes the reassembly buffer (see the counterexample). -/
theorem c8_amended_theorem : ∀ (buffer data : List Byte), data.length ≠ 6 →
    (HP90EPD_decode buffer data).1 =
      (HP90EPD_decode (HP90EPD_decode buffer data).2.2 data).1 := by
  intro buffer data h
  by_cases h8 : data.length = 8
  · simp [HP90EPD_decode, h8]
  · simp [HP90EPD_decode, h8, h]

/-- C8 witness: the amended theorem applied to a concrete 3-byte frame. -/
theorem c8_witness :
    (HP90EPD_decode [] [1, 2, 3]).1 =
      (HP90EPD_decode (HP90EPD_decode [] [1, 2, 3]).2.2 [1, 2, 3]).1 :=
  c8_amended_theorem [] [1, 2, 3] (by decide)

/-- Helper: the column fold over identical readings extends one column. -/
theorem foldl_buildStep_replicate (k : Nat) (ts n : ℚ) (a u : String) (vs : List (ℚ × ℚ)) :
    List.foldl buildStep [((a, unitKey u), vs)]
        (List.replicate k ⟨ts, a, MsgData.reading n u⟩) =
      [((a, unitKey u), vs ++ List.replicate k (ts, n))] := by
  induction k generalizing vs with
  | zero => simp
  | succ k ih =>
    rw [List.replicate_succ, List.foldl_cons]
    have hstep : buildStep [((a, unitKey u), vs)] ⟨ts, a, MsgData.reading n u⟩ =
        [((a, unitKey u), vs ++ [(ts, n)])] := by
      simp [buildStep, addCol]
    rw [hstep, ih, List.append_assoc, List.singleton_append, ← List.replicate_succ]

/-- Helper: a batch of identical readings groups into one column. -/
theorem buildColumns_replicate (k : Nat) (ts n : ℚ) (a u : String) (h : 0 < k) :
    buildColumns (List.replicate k ⟨ts, a, MsgData.reading n u⟩) =
      [((a, unitKey u), List.replicate k (ts, n))] := by
  cases k with
  | zero => omega
  | succ k =>
    rw [buildColumns, List.replicate_succ, List.foldl_cons]
    have hstep : buildStep [] ⟨ts, a, MsgData.reading n u⟩ =
        [((a, unitKey u), [(ts, n)])] := by
      simp [buildStep, addCol]
    rw [hstep, foldl_buildStep_replicate, List.singleton_append, ← List.replicate_succ]

/-- Helper: inserting an element into a run of itself extends the run. -/
theorem insertSorted_self (x : ℚ) (k : Nat) :
    insertSorted x (List.replicate k x) = List.replicate (k + 1) x := by
  cases k with
  | zero => rfl
  | succ k => simp [List.replicate_succ, insertSorted]

/-- Helper: sorting a constant list is the identity. -/
theorem pySorted_replicate (k : Nat) (x : ℚ) :
    pySorted (List.replicate k x) = List.replicate k x := by
  induction k with
  | zero => rfl
  | succ k ih =>
    rw [pySorted, List.replicate_succ, List.foldr_cons]
    show insertSorted x (pySorted (List.replicate k x)) = _
    rw [ih, insertSorted_self, List.replicate_succ]

/-- Helper: folding addition over a constant list. -/
theorem foldl_add_replicate (k : Nat) (x : ℚ) : ∀ a : ℚ,
    List.foldl (fun p q => p + q) a (List.replicate k x) = a + k * x := by
  induction k with
  | zero => intro a; simp
  | succ k ih =>
    intro a
    rw [List.replicate_succ, List.foldl_cons, ih]
    push_cast
    ring

/-- Helper: the sum of a constant list. -/
theorem listSum_replicate (k : Nat) (x : ℚ) : listSum (List.replicate k x) = k * x := by
  rw [listSum, foldl_add_replicate]
  ring

/-- Helper: folding min over a constant list. -/
theorem foldl_min_replicate (k : Nat) (x : ℚ) :
    List.foldl min x (List.replicate k x) = x := by
  induction k with
  | zero => rfl
  | succ k ih => rw [List.replicate_succ, List.foldl_cons, min_self]; exact ih

/-- Helper: folding max over a constant list. -/
theorem foldl_max_replicate (k : Nat) (x : ℚ) :
    List.foldl max x (List.replicate k x) = x := by
  induction k with
  | zero => rfl
  | succ k ih => rw [List.replicate_succ, List.foldl_cons, max_self]; exact ih

/-- Helper: min of a nonempty constant list. -/
theorem pyMin_replicate (k : Nat) (x : ℚ) (h : 0 < k) :
    pyMin (List.replicate k x) = x := by
  cases k with
  | zero => omega
  | succ k =>
    rw [List.replicate_succ]
    simp only [pyMin]
    exact foldl_min_replicate k x

/-- Helper: max of a nonempty constant list. -/
theorem pyMax_replicate (k : Nat) (x : ℚ) (h : 0 < k) :
    pyMax (List.replicate k x) = x := by
  cases k with
  | zero => omega
  | succ k =>
    rw [List.replicate_succ]
    simp only [pyMax]
    exact foldl_max_replicate k x

/-- Helper: the statistics row of a column of identical samples, projected
to its count, mean, squared deviation, minimum, median and maximum. -/
theorem colStats_replicate (start stop : ℚ) (nm : String × String) (k : Nat) (h : 0 < k)
    (ts n : ℚ) :
    (colStats start stop nm (List.replicate k (ts, n))).map
        (fun r => (r.samples, r.mean, r.deviation_sq, r.minimum, r.median, r.maximum)) =
      some (k, n, (0 : ℚ), n, n, n) := by
  have hv : pySorted ((List.replicate k ((ts, n) : ℚ × ℚ)).map (fun tv => tv.2)) =
      List.replicate k n := by
    rw [List.map_replicate]
    exact pySorted_replicate k n
  have hkq : ((k : ℚ)) ≠ 0 := Nat.cast_ne_zero.mpr h.ne'
  simp only [colStats, hv, List.length_replicate]
  rw [if_neg (by omega : ¬ (k = 0))]
  simp only [Option.map_some']
  rw [listSum_replicate, pyMin_replicate k n h, pyMax_replicate k n h, if_pos rfl,
    getD_replicate, if_pos (Nat.div_lt_self h (by omega)),
    mul_div_cancel_left₀ n hkq]

/-- C9: statistics per (address, unit) computes the sample count, mean,
population deviation (stored squared here; zero when all samples are
identical), min, max and the nearest-rank quartiles on the sorted samples
with the 75th-percentile index clamped. In particular the batch
[1, 2, 3, 4] yields mean 5/2, squared population deviation 5/4 (deviation
sqrt(1.25) ≈ 1.118), and median values[4 / 2] = 3; a second concrete batch
exercises the clamping and the unit-label stripping at "("; and for every
batch of k > 0 identical readings the row carries count k, mean the common
value, deviation 0, and min = median = max that value. -/
theorem c9_theorem :
    statistics [⟨0, "A", MsgData.reading 1 "u"⟩, ⟨0, "A", MsgData.reading 2 "u"⟩,
        ⟨0, "A", MsgData.reading 3 "u"⟩, ⟨0, "A", MsgData.reading 4 "u"⟩] 0 10 =
      [⟨10, 10, "A", "u", 5/2, 4, 5/4, 1, 2, 3, 4, 4⟩] ∧
    statistics [⟨1, "B", MsgData.reading 7 "v (auto)"⟩, ⟨2, "B", MsgData.reading 7 "v (auto)"⟩,
        ⟨3, "B", MsgData.reading 7 "v (auto)"⟩] 2 5 =
      [⟨5, 3, "B", "v", 7, 3, 0, 7, 7, 7, 7, 7⟩] ∧
    (∀ (k : Nat) (ts n start stop : ℚ) (a u : String), 0 < k →
      (statistics (List.replicate k ⟨ts, a, MsgData.reading n u⟩) start stop).map
          (fun r => (r.samples, r.mean, r.deviation_sq, r.minimum, r.median, r.maximum)) =
        [(k, n, 0, n, n, n)]) := by
  refine ⟨?_, ?_, ?_⟩
  · have hcols : buildColumns [⟨0, "A", MsgData.reading 1 "u"⟩,
        ⟨0, "A", MsgData.reading 2 "u"⟩, ⟨0, "A", MsgData.reading 3 "u"⟩,
        ⟨0, "A", MsgData.reading 4 "u"⟩] =
        [(("A", "u"), [(0, 1), (0, 2), (0, 3), (0, 4)])] := by decide
    rw [statistics, hcols]
    simp only [List.filterMap_cons, List.filterMap_nil]
    have hsort : pySorted (([((0 : ℚ), (1 : ℚ)), (0, 2), (0, 3), (0, 4)]).map
        (fun tv => tv.2)) = [1, 2, 3, 4] := by decide
    simp only [colStats, hsort]
    norm_num [pyRound, listSum, pyMin, pyMax, List.foldl_cons, List.foldl_nil, List.getD,
      min_def, max_def]
    decide
  · have hcols : buildColumns [⟨1, "B", MsgData.reading 7 "v (auto)"⟩,
        ⟨2, "B", MsgData.reading 7 "v (auto)"⟩, ⟨3, "B", MsgData.reading 7 "v (auto)"⟩] =
        [(("B", "v"), [(1, 7), (2, 7), (3, 7)])] := by decide
    rw [statistics, hcols]
    simp only [List.filterMap_cons, List.filterMap_nil]
    have hsort : pySorted (([((1 : ℚ), (7 : ℚ)), (2, 7), (3, 7)]).map
        (fun tv => tv.2)) = [7, 7, 7] := by decide
    simp only [colStats, hsort]
    norm_num [pyRound, listSum, pyMin, pyMax, List.foldl_cons, List.foldl_nil, List.getD,
      min_def, max_def]
    decide
  intro k ts n start stop a u hk
  have hcr := colStats_replicate start stop (a, unitKey u) k hk ts n
  rcases hcs : colStats start stop (a, unitKey u) (List.replicate k (ts, n)) with _ | st
  · rw [hcs] at hcr
    cases hcr
  · rw [hcs] at hcr
    simp only [Option.map_some'] at hcr
    rw [statistics, buildColumns_replicate k ts n a u hk]
    simp only [List.filterMap_cons, List.filterMap_nil, hcs, List.map_cons, List.map_nil]
    rw [Option.some.injEq] at hcr
    rw [hcr]

/-- C9 witness: the theorem's general part applied to a batch of two
identical readings. -/
theorem c9_witness :
    (statistics (List.replicate 2 ⟨(0 : ℚ), "C", MsgData.reading 9 "w"⟩) 0 1).map
        (fun r => (r.samples, r.mean, r.deviation_sq, r.minimum, r.median, r.maximum)) =
      [(2, (9 : ℚ), (0 : ℚ), 9, 9, 9)] :=
  c9_theorem.2.2 2 0 9 0 1 "C" "w" (by decide)

/-- Helper: the column fold ignores absent records — folding a batch equals
folding the batch with absent records filtered out. -/
theorem foldl_buildStep_filter (msgs : List SMsg) : ∀ cols,
    List.foldl buildStep cols msgs =
      List.foldl buildStep cols (msgs.filter (fun m => m.data != MsgData.absent)) := by
  induction msgs with
  | nil => intro cols; rfl
  | cons m ms ih =>
    intro cols
    rw [List.foldl_cons, List.filter_cons]
    cases hd : m.data with
    | absent =>
      rw [if_neg (by decide)]
      have hb : buildStep cols m = cols := by simp [buildStep, hd]
      rw [hb]
      exact ih cols
    | reading n u =>
      rw [if_pos (show (MsgData.reading n u != MsgData.absent) = true from rfl),
        List.foldl_cons]
      exact ih (buildStep cols m)

/-- Helper: the column fold over an all-absent batch builds nothing. -/
theorem foldl_buildStep_absent (msgs : List SMsg) : ∀ cols,
    msgs.all (fun m => m.data == MsgData.absent) = true →
    List.foldl buildStep cols msgs = cols := by
  induction msgs with
  | nil => intro cols _; rfl
  | cons m ms ih =>
    intro cols h
    rw [List.all_cons, Bool.and_eq_true] at h
    have hd : m.data = MsgData.absent := by simpa using h.1
    rw [List.foldl_cons]
    have hb : buildStep cols m = cols := by simp [buildStep, hd]
    rw [hb]
    exact ih cols h.2

/-- C10: records whose decoded data is the absent triple contribute to no
column or row — statistics of a batch equals statistics of the batch with
absent records removed — and a batch of only absent records produces no
rows at all. -/
theorem c10_theorem : ∀ (messages : List SMsg) (start stop : ℚ),
    statistics messages start stop =
      statistics (messages.filter (fun m => m.data != MsgData.absent)) start stop ∧
    (messages.all (fun m => m.data == MsgData.absent) = true →
      statistics messages start stop = []) := by
  intro messages start stop
  constructor
  · rw [statistics, statistics, buildColumns, buildColumns, foldl_buildStep_filter]
  · intro h
    rw [statistics, buildColumns, foldl_buildStep_absent messages [] h]
    rfl

/-- C10 witness: the theorem applied to a batch holding one absent record. -/
theorem c10_witness : statistics [⟨0, "A", MsgData.absent⟩] 0 1 = [] :=
  (c10_theorem [⟨0, "A", MsgData.absent⟩] 0 1).2 (by decide)
